import Mathlib

/-!
Shallow embedding of the root module of the nickel-gc crate
(src/gc/nickel-gc/src/root.rs): the `Root` handle protocol over the
block-local `evaced` tables.

Modelling conventions:
* machine addresses (`*const u8`, `NonNull<RootInner>`) are natural numbers;
* the per-block `evaced` tables are flattened into one partial map keyed by
  object address (blocks occupy disjoint address ranges, so the union of the
  per-block tables is keyed without collisions, and the block containing an
  address is a function of the address, as `Header::from_ptr` computes it);
* the `Box`-allocated `RootInner`s form a partial map from their address to
  their current field values (`Cell` contents read out);
* function pointers (`trace_fn`) are opaque identifiers (naturals);
* a Rust `panic!` is an `Except.error` carrying the panic message;
* `internals::marker()` is the `marker` field of the state, and the
  `gc_stats` counters are the `blockCount` / `postBlockCount` fields.
-/

namespace NickelGc

/-- `ObjectStatus` (root.rs): the per-object evacuation state stored in a
block's `evaced` table.  `Moved` carries the forwarding address, `Rooted`
carries the address of the heap-allocated `RootInner`. -/
inductive ObjectStatus where
  | Moved : Nat → ObjectStatus
  | Rooted : Nat → ObjectStatus
  | Dropped : ObjectStatus
deriving DecidableEq

/-- The `#[derive(Debug)]` rendering of an `ObjectStatus`, as interpolated
into the panic message of `Root::from_gc`.  Pointer payloads are rendered
through their numeric model value (the source renders them in the platform's
pointer format; only the message's prefix is at issue in the claims). -/
def ObjectStatus.debugStr : ObjectStatus → String
  | ObjectStatus.Moved p => "Moved(" ++ toString p ++ ")"
  | ObjectStatus.Rooted r => "Rooted(" ++ toString r ++ ")"
  | ObjectStatus.Dropped => "Dropped"

/-- `RootInner` (root.rs): the reference-counted record behind a `Root`
handle.  `Cell` fields are read out as plain values. -/
structure RootInner where
  ptr : Nat
  trace_fn : Nat
  collection_marker : Bool
  traced_count : Nat
  ref_count : Nat
deriving DecidableEq

/-- `RootInner::new` (root.rs): a fresh record for the object at `addr`
whose type's trace function is `trFn`, under current global marker `m`.
(`Header::checksum` is a debug magic-word validation on the containing
block and does not contribute to the constructed value.) -/
def RootInner.new (addr trFn : Nat) (m : Bool) : RootInner :=
  { ptr := addr, trace_fn := trFn, collection_marker := m,
    traced_count := 0, ref_count := 1 }

/-- `Root` (root.rs): a handle holding the address of a shared `RootInner`.
The derived `PartialEq`/`Eq`/`PartialOrd`/`Ord`/`Hash` act on that address
(`NonNull` compares and hashes the raw pointer value). -/
structure Root where
  inner : Nat
deriving DecidableEq

/-- The mutable state the root module touches, flattened as described in the
file comment. -/
structure GcState where
  /-- union of every block header's `evaced` table, keyed by object address -/
  evaced : Nat → Option ObjectStatus
  /-- the heap of `Box::leak`-allocated `RootInner`s, keyed by address -/
  inners : Nat → Option RootInner
  /-- the global collection marker `internals::marker()` -/
  marker : Bool
  /-- allocator: the address the next `RootInner` allocation receives -/
  nextInner : Nat
  /-- `gc_stats::BLOCK_COUNT` -/
  blockCount : Nat
  /-- `gc_stats::POST_BLOCK_COUNT` -/
  postBlockCount : Nat
  /-- `Header.info` of the block containing an address: the `GcInfo`
  identity of the type stored in that block -/
  headerInfo : Nat → Nat
  /-- the `#[derive(Debug)]` rendering of the block header containing an
  address, as interpolated into the downcast error message -/
  headerDebug : Nat → String
  /-- the managed heap: the (opaque) object value stored at an address -/
  mem : Nat → Nat

/-- Pointwise update of a partial map, the model of a `HashMap`
insert (`v = some _`) or remove (`v = none`). -/
def upd {α : Type} (f : Nat → Option α) (k : Nat) (v : Option α) :
    Nat → Option α :=
  fun a => if a = k then v else f a

/-- `Root::from_gc` (root.rs, lines 50–64): look the object's address up in
its block's `evaced` table; when absent, insert `Rooted` over a fresh
`RootInner`; return a handle for a `Rooted` entry, and panic (modelled as
`Except.error`) on `Moved` or `Dropped`.  The reuse arm returns a second
handle to the existing `RootInner` without touching `ref_count`, exactly as
the source does. -/
def Root.from_gc (addr trFn : Nat) (st : GcState) :
    Except String (Root × GcState) :=
  match st.evaced addr with
  | none =>
      let id := st.nextInner
      let st' : GcState :=
        { st with
          evaced := upd st.evaced addr (some (ObjectStatus.Rooted id)),
          inners := upd st.inners id (some (RootInner.new addr trFn st.marker)),
          nextInner := id + 1 }
      Except.ok ({ inner := id }, st')
  | some (ObjectStatus.Rooted r) => Except.ok ({ inner := r }, st)
  | some e =>
      Except.error ("Attempted to root a object with existing status: "
        ++ e.debugStr)

/-- `<Root as GC>::trace` (root.rs, lines 87–111): one trace step on a
`Root` handle discovered through a managed pointer.  `tracedCmp` is the
value of the source's local `traced_count` binding: the pre-increment count
in the current-marker arm, the post-reset value `1` in the stale arm.
The final call to `inner.trace_fn` only appends to the caller's worklist
and reads the object; it touches none of the state modelled here.
(Dereferencing a dangling `RootInner` pointer is undefined behaviour in the
source; the `none` arm is modelled as a no-op.) -/
def Root.trace (s : Root) (st : GcState) : GcState :=
  match st.inners s.inner with
  | none => st
  | some inner =>
      let ptr := inner.ptr
      let tracedCmp :=
        if inner.collection_marker = st.marker then inner.traced_count else 1
      let inner1 :=
        if inner.collection_marker = st.marker then
          { inner with traced_count := inner.traced_count + 1 }
        else
          { inner with collection_marker := st.marker, traced_count := 1 }
      let st1 := { st with inners := upd st.inners s.inner (some inner1) }
      if tracedCmp = inner.ref_count then
        { st1 with evaced := upd st1.evaced ptr none }
      else st1

/-- `<Root as Clone>::clone` (root.rs, lines 115–123): bump `ref_count`,
return a handle holding the same `RootInner` address. -/
def Root.clone (s : Root) (st : GcState) : Root × GcState :=
  match st.inners s.inner with
  | none => (s, st)
  | some inner =>
      ({ inner := s.inner },
       { st with
         inners := upd st.inners s.inner
           (some { inner with ref_count := inner.ref_count + 1 }) })

/-- `<Root as Drop>::drop` (root.rs, lines 125–133): decrement `ref_count`;
nothing else is touched — no destructor runs and the `RootInner` stays
allocated ("Running destructors is handled by the Underlying Gc, not
Root"). -/
def Root.drop (s : Root) (st : GcState) : GcState :=
  match st.inners s.inner with
  | none => st
  | some inner =>
      { st with
        inners := upd st.inners s.inner
          (some { inner with ref_count := inner.ref_count - 1 }) }

/-- `Root::collect_garbage` (root.rs, lines 79–83): run `internals::run_evac`
exactly when `BLOCK_COUNT >= 2 * POST_BLOCK_COUNT`.  `run_evac` lives in the
`internals` module, outside the sources at hand, so the evacuation cycle is
an arbitrary state transformer passed as a parameter. -/
def Root.collect_garbage (run_evac : GcState → GcState) (st : GcState) :
    GcState :=
  if st.blockCount ≥ 2 * st.postBlockCount then run_evac st else st

/-- A Rust type `T` as the downcast sees it: the identity of `GcInfo::of::<T>()`
and `type_name::<T>()`. -/
structure TypeRep where
  info : Nat
  name : String

/-- `RootGc<T>` (root.rs): a typed wrapper around a `Root`. -/
structure RootGc where
  root : Root
deriving DecidableEq

/-- `<RootGc<T> as TryFrom<Root>>::try_from` (root.rs, lines 147–166):
compare the containing block header's `info` with `GcInfo::of::<T>()`; wrap
on a match, return the descriptive mismatch string otherwise.
(Dereferencing a dangling `RootInner` pointer is undefined behaviour in the
source; the `none` arm is modelled as an error.) -/
def RootGc.try_from (T : TypeRep) (root : Root) (st : GcState) :
    Except String RootGc :=
  match st.inners root.inner with
  | none => Except.error ("invalid root handle")
  | some inner =>
      if st.headerInfo inner.ptr = T.info then
        Except.ok { root := root }
      else
        Except.error ("The Root is of type:          `"
          ++ st.headerDebug inner.ptr
          ++ "`\nyou tried to convert it to a: `" ++ T.name ++ "`")

/-- `<RootGc<T> as Deref>::deref` (root.rs, lines 33–39): read the object at
its current location through `RootInner.ptr`. -/
def RootGc.deref (rg : RootGc) (st : GcState) : Option Nat :=
  (st.inners rg.root.inner).map (fun inner => st.mem inner.ptr)

/-- The derived `PartialEq` of `Root`: `NonNull` equality compares the raw
pointer value and never reads the pointee.  The state argument records
exactly that the `RootInner` contents in `st.inners` are not consulted. -/
def Root.eqb (_st : GcState) (a b : Root) : Bool :=
  a.inner == b.inner

/-- The derived `Ord` of `Root`: ordering of the raw pointer values. -/
def Root.cmp (_st : GcState) (a b : Root) : Ordering :=
  compare a.inner b.inner

/-- The derived `Hash` of `Root`: the data fed to the hasher is the raw
pointer value alone. -/
def Root.hashData (_st : GcState) (a : Root) : Nat :=
  a.inner

/-- Modelled from the spec: the collector itself (`internals::run_evac`) is
not among the sources at hand; §4.5 of the spec fixes what reaches a
`RootInner` during one cycle — each of the `ref_count` owning `Root` handles
lives in the managed heap and is traced at most once ("An object reachable
through multiple paths is evacuated at most once"), each such trace
performing one `<Root as GC>::trace` step on the shared `RootInner`.  A
cycle is therefore modelled as some number `n ≤ ref_count` of iterated
trace steps on the handle. -/
def traceN (s : Root) : Nat → GcState → GcState
  | 0, st => st
  | n + 1, st => traceN s n (Root.trace s st)

/-- An empty state: no rooted objects, no allocations. -/
def st0 : GcState :=
  { evaced := fun _ => none, inners := fun _ => none, marker := false,
    nextInner := 0, blockCount := 0, postBlockCount := 0,
    headerInfo := fun _ => 0, headerDebug := fun _ => "", mem := fun _ => 0 }

/-- Concrete `RootInner` for the demotion counterexample: current marker,
one live handle, untraced so far this cycle. -/
def innerC1 : RootInner :=
  { ptr := 5, trace_fn := 7, collection_marker := false, traced_count := 0,
    ref_count := 1 }

/-- Concrete state for the demotion counterexample: the object at address 5
is rooted through the `RootInner` at address 0, whose marker matches the
current global marker. -/
def stC1 : GcState :=
  { st0 with
    evaced := upd st0.evaced 5 (some (ObjectStatus.Rooted 0)),
    inners := upd st0.inners 0 (some innerC1) }

/-- Concrete state with a `Moved` entry at address 9, for the rooting-panic
claims. -/
def stC5 : GcState :=
  { st0 with evaced := upd st0.evaced 9 (some (ObjectStatus.Moved 3)) }

/-- Concrete `RootInner` for the remaining witnesses: stale marker, three
live handles. -/
def innerEx : RootInner :=
  { ptr := 5, trace_fn := 7, collection_marker := true, traced_count := 0,
    ref_count := 3 }

/-- Concrete state for the remaining witnesses: the object at address 5 is
rooted through the `RootInner` at address 0 whose marker is stale; its
block's type info identity is 11. -/
def stEx : GcState :=
  { st0 with
    evaced := upd st0.evaced 5 (some (ObjectStatus.Rooted 0)),
    inners := upd st0.inners 0 (some innerEx),
    headerInfo := fun _ => 11,
    headerDebug := fun _ => "HeaderOfFive",
    mem := fun a => a + 100 }

theorem upd_self {α : Type} (f : Nat → Option α) (k : Nat) (v : Option α) :
    upd f k v k = v := by
  simp [upd]

theorem upd_other {α : Type} (f : Nat → Option α) (k a : Nat)
    (v : Option α) (h : a ≠ k) : upd f k v a = f a := by
  simp [upd, h]

theorem trace_inners_self (s : Root) (st : GcState) (i : RootInner)
    (h : st.inners s.inner = some i) :
    (Root.trace s st).inners s.inner =
      some (if i.collection_marker = st.marker
            then { i with traced_count := i.traced_count + 1 }
            else { i with collection_marker := st.marker,
                          traced_count := 1 }) := by
  simp only [Root.trace, h]
  split <;> split <;> simp [upd]

theorem trace_marker_eq (s : Root) (st : GcState) :
    (Root.trace s st).marker = st.marker := by
  unfold Root.trace
  cases h : st.inners s.inner with
  | none => rfl
  | some i => dsimp only; split <;> split <;> rfl

/-- Claim C4: `collect_garbage` runs the evacuation cycle exactly when
`BLOCK_COUNT ≥ 2 * POST_BLOCK_COUNT` holds at the call, and otherwise is a
no-op returning the state unchanged. -/
theorem collect_garbage_trigger (run_evac : GcState → GcState)
    (st : GcState) :
    (st.blockCount ≥ 2 * st.postBlockCount →
       Root.collect_garbage run_evac st = run_evac st) ∧
    (¬ st.blockCount ≥ 2 * st.postBlockCount →
       Root.collect_garbage run_evac st = st) := by
  constructor <;> intro h <;> simp [Root.collect_garbage, h]

/-- Witness for claim C4 at two concrete states: with counts 4 and 2 the
cycle runs, with counts 1 and 1 the call leaves the state untouched. -/
theorem collect_garbage_trigger_witness :
    Root.collect_garbage (fun s => { s with marker := true })
        { st0 with blockCount := 4, postBlockCount := 2 } =
      { { st0 with blockCount := 4, postBlockCount := 2 } with
        marker := true } ∧
    Root.collect_garbage (fun s => { s with marker := true })
        { st0 with blockCount := 1, postBlockCount := 1 } =
      { st0 with blockCount := 1, postBlockCount := 1 } :=
  ⟨(collect_garbage_trigger (fun s => { s with marker := true })
      { st0 with blockCount := 4, postBlockCount := 2 }).1 (by decide),
   (collect_garbage_trigger (fun s => { s with marker := true })
      { st0 with blockCount := 1, postBlockCount := 1 }).2 (by decide)⟩

/-- Claim C6: rooting an address absent from the `evaced` table inserts a
`Rooted` entry over a fresh `RootInner` with `ref_count` 1, `traced_count`
0, the current global marker, the object's address and the type's trace
function, and returns a `Root` wrapping that `RootInner`. -/
theorem from_gc_fresh_inserts (addr trFn : Nat) (st : GcState)
    (h : st.evaced addr = none) :
    Root.from_gc addr trFn st =
      Except.ok ({ inner := st.nextInner },
        { st with
          evaced := upd st.evaced addr
            (some (ObjectStatus.Rooted st.nextInner)),
          inners := upd st.inners st.nextInner
            (some { ptr := addr, trace_fn := trFn,
                    collection_marker := st.marker, traced_count := 0,
                    ref_count := 1 }),
          nextInner := st.nextInner + 1 }) := by
  simp only [Root.from_gc, h]
  rfl

/-- Witness for claim C6: rooting address 5 in the empty state. -/
theorem from_gc_fresh_inserts_witness :
    Root.from_gc 5 7 st0 =
      Except.ok ({ inner := 0 },
        { st0 with
          evaced := upd st0.evaced 5 (some (ObjectStatus.Rooted 0)),
          inners := upd st0.inners 0
            (some { ptr := 5, trace_fn := 7, collection_marker := false,
                    traced_count := 0, ref_count := 1 }),
          nextInner := 1 }) :=
  from_gc_fresh_inserts 5 7 st0 rfl

/-- Claim C2 is a code bug; this evaluates the source at the failing input:
rooting address 5 twice yields two handles over the one `RootInner` at
address 0, but leaves its `ref_count` at 1 — `Root::from_gc`'s reuse arm
never increments it, although `ref_count` is documented in root.rs as "the
count of all owning references". -/
theorem from_gc_reuse_refcount_bug :
    ∃ r1 st1, Root.from_gc 5 7 st0 = Except.ok (r1, st1) ∧
      ∃ r2 st2, Root.from_gc 5 7 st1 = Except.ok (r2, st2) ∧
        r1.inner = r2.inner ∧
        st2.inners r1.inner =
          some { ptr := 5, trace_fn := 7, collection_marker := false,
                 traced_count := 0, ref_count := 1 } :=
  ⟨_, _, rfl, _, _, rfl, rfl, rfl⟩

/-- Claim C5, counterexample: rooting the `Moved` object at address 9 fails
with the message "Attempted to root a object with existing status: …" — the
diagnostic the claim quotes, "attempted to root an object with existing
status", is not a prefix of it. -/
theorem from_gc_panic_message_cex :
    Root.from_gc 9 7 stC5 =
      Except.error
        ("Attempted to root a object with existing status: Moved(3)") ∧
    ("attempted to root an object").data.isPrefixOf
        ("Attempted to root a object with existing status: Moved(3)").data
      = false := by
  exact ⟨rfl, by decide⟩

/-- Claim C5 (amended): rooting an address whose `evaced` entry is `Moved`
or `Dropped` never returns a handle; it fails fatally with the diagnostic
"Attempted to root a object with existing status: " followed by the debug
rendering of the entry. -/
theorem from_gc_existing_status_fails (addr trFn : Nat) (st : GcState)
    (e : ObjectStatus) (h : st.evaced addr = some e)
    (hnr : ∀ r, e ≠ ObjectStatus.Rooted r) :
    Root.from_gc addr trFn st =
      Except.error ("Attempted to root a object with existing status: "
        ++ e.debugStr) := by
  cases e with
  | Moved p => simp only [Root.from_gc, h]
  | Rooted r => exact absurd rfl (hnr r)
  | Dropped => simp only [Root.from_gc, h]

/-- Witness for the amended claim C5: the `Moved` entry at address 9. -/
theorem from_gc_existing_status_fails_witness :
    Root.from_gc 9 7 stC5 =
      Except.error ("Attempted to root a object with existing status: "
        ++ (ObjectStatus.Moved 3).debugStr) :=
  from_gc_existing_status_fails 9 7 stC5 (ObjectStatus.Moved 3) rfl
    (fun _ hr => ObjectStatus.noConfusion hr)

/-- Claim C10: the derived comparisons of `Root` act on the `RootInner`
address alone — two handles are equal exactly when they alias the same
`RootInner`, and equality, ordering and hash data are unchanged under any
change of heap state (object location, reference counts). -/
theorem root_identity_equality (st1 st2 : GcState) (a b : Root) :
    (Root.eqb st1 a b = true ↔ a = b) ∧
    (a = b ↔ a.inner = b.inner) ∧
    Root.eqb st1 a b = Root.eqb st2 a b ∧
    Root.cmp st1 a b = compare a.inner b.inner ∧
    Root.cmp st1 a b = Root.cmp st2 a b ∧
    Root.hashData st1 a = Root.hashData st2 a := by
  have hib : a = b ↔ a.inner = b.inner := by
    cases a; cases b; simp
  exact ⟨by simp [Root.eqb, hib], hib, rfl, rfl, rfl, rfl⟩

/-- Claim C1, counterexample: at a state whose stored marker is current,
with one live handle and no trace yet this cycle, a trace step leaves
`traced_count = ref_count = 1` and yet does not remove the `Rooted` entry
at address 5 — the source compares `ref_count` against the pre-increment
count, so removal is not "exactly when `traced_count` equals `ref_count`
after that trace step". -/
theorem trace_demotion_cex :
    (Root.trace { inner := 0 } stC1).inners 0 =
      some { ptr := 5, trace_fn := 7, collection_marker := false,
             traced_count := 1, ref_count := 1 } ∧
    (Root.trace { inner := 0 } stC1).evaced 5 =
      some (ObjectStatus.Rooted 0) :=
  ⟨rfl, rfl⟩

/-- Claim C1 (amended): a trace step through an ordinary managed pointer
increments `traced_count` (first resetting the count to 1 and updating
`collection_marker` when the stored marker is stale), and the `Rooted`
entry is removed from the `evaced` table exactly when `ref_count` equals
the count the source compares: the pre-increment `traced_count` when the
stored marker is current, and 1 when it is stale. -/
theorem trace_step_behavior (s : Root) (st : GcState) (i : RootInner)
    (h : st.inners s.inner = some i) :
    (Root.trace s st).inners s.inner =
      some (if i.collection_marker = st.marker
            then { i with traced_count := i.traced_count + 1 }
            else { i with collection_marker := st.marker,
                          traced_count := 1 }) ∧
    (Root.trace s st).evaced i.ptr =
      (if (if i.collection_marker = st.marker then i.traced_count else 1)
          = i.ref_count
       then none else st.evaced i.ptr) ∧
    (∀ a, a ≠ i.ptr → (Root.trace s st).evaced a = st.evaced a) := by
  refine ⟨trace_inners_self s st i h, ?_, ?_⟩
  · simp only [Root.trace, h]
    split <;> split <;> simp [upd]
  · intro a ha
    simp only [Root.trace, h]
    split <;> split <;> simp [upd, ha]

/-- Witness for the amended claim C1 at a stale-marker state: the count
resets to 1 and, `ref_count` being 3, the entry at address 5 stays. -/
theorem trace_step_behavior_witness :
    (Root.trace { inner := 0 } stEx).inners 0 =
      some { ptr := 5, trace_fn := 7, collection_marker := false,
             traced_count := 1, ref_count := 3 } ∧
    (Root.trace { inner := 0 } stEx).evaced 5 =
      some (ObjectStatus.Rooted 0) :=
  ⟨(trace_step_behavior { inner := 0 } stEx innerEx rfl).1,
   (trace_step_behavior { inner := 0 } stEx innerEx rfl).2.1⟩

theorem traceN_fresh (s : Root) :
    ∀ (n : Nat) (st : GcState) (i : RootInner),
      st.inners s.inner = some i → i.collection_marker = st.marker →
      (traceN s n st).inners s.inner =
        some { ptr := i.ptr, trace_fn := i.trace_fn,
               collection_marker := st.marker,
               traced_count := i.traced_count + n,
               ref_count := i.ref_count } := by
  intro n
  induction n with
  | zero =>
      intro st i h hm
      rw [← hm]
      simpa using h
  | succ n ih =>
      intro st i h hm
      have h1 : (Root.trace s st).inners s.inner =
          some { i with traced_count := i.traced_count + 1 } := by
        have := trace_inners_self s st i h
        rw [if_pos hm] at this
        exact this
      have h2 := ih (Root.trace s st) _ h1 (by simp [trace_marker_eq, hm])
      show (traceN s n (Root.trace s st)).inners s.inner = _
      rw [h2]
      simp [trace_marker_eq]
      omega

/-- Claim C3: during a collection cycle — modelled per `traceN` as at most
`ref_count` trace steps from a state whose stored marker is stale, with no
clone or drop interleaved (the cycle is stop-the-world) — after every step
the stored marker is current, `traced_count` equals the number of steps so
far, and `ref_count ≥ traced_count` holds throughout. -/
theorem cycle_refcount_ge_traced (s : Root) (st : GcState) (i : RootInner)
    (h : st.inners s.inner = some i)
    (hstale : ¬ i.collection_marker = st.marker)
    (k : Nat) (hk : k ≤ i.ref_count) :
    ∀ j, 1 ≤ j → j ≤ k →
      (traceN s j st).inners s.inner =
        some { ptr := i.ptr, trace_fn := i.trace_fn,
               collection_marker := st.marker, traced_count := j,
               ref_count := i.ref_count } ∧
      j ≤ i.ref_count := by
  intro j hj1 hjk
  obtain ⟨j', rfl⟩ : ∃ j', j = j' + 1 := ⟨j - 1, by omega⟩
  refine ⟨?_, by omega⟩
  have h1 : (Root.trace s st).inners s.inner =
      some { i with collection_marker := st.marker, traced_count := 1 } := by
    have := trace_inners_self s st i h
    rw [if_neg hstale] at this
    exact this
  have h2 := traceN_fresh s j' (Root.trace s st) _ h1
    (by simp [trace_marker_eq])
  show (traceN s j' (Root.trace s st)).inners s.inner = _
  rw [h2]
  simp [trace_marker_eq]
  omega

/-- Witness for claim C3: one step of a two-step cycle on the stale-marker
state, `ref_count` 3. -/
theorem cycle_refcount_ge_traced_witness :
    (traceN { inner := 0 } 1 stEx).inners 0 =
      some { ptr := 5, trace_fn := 7, collection_marker := false,
             traced_count := 1, ref_count := 3 } ∧
    1 ≤ 3 :=
  cycle_refcount_ge_traced { inner := 0 } stEx innerEx rfl (by decide) 2
    (by decide) 1 (by decide) (by decide)

/-- Claim C7: cloning a handle bumps the shared `ref_count` by exactly one
and returns a handle holding the same `RootInner` address; dropping one
decrements it by exactly one; neither touches any other `RootInner`, the
`evaced` tables, the heap contents or the marker — in particular no
destructor runs on drop. -/
theorem clone_drop_refcount (s : Root) (st : GcState) (i : RootInner)
    (h : st.inners s.inner = some i) (hpos : 0 < i.ref_count) :
    (Root.clone s st).1.inner = s.inner ∧
    (Root.clone s st).2.inners s.inner =
      some { i with ref_count := i.ref_count + 1 } ∧
    (∀ a, a ≠ s.inner → (Root.clone s st).2.inners a = st.inners a) ∧
    (Root.clone s st).2.evaced = st.evaced ∧
    (Root.clone s st).2.mem = st.mem ∧
    (Root.drop s st).inners s.inner =
      some { i with ref_count := i.ref_count - 1 } ∧
    (i.ref_count - 1) + 1 = i.ref_count ∧
    (∀ a, a ≠ s.inner → (Root.drop s st).inners a = st.inners a) ∧
    (Root.drop s st).evaced = st.evaced ∧
    (Root.drop s st).mem = st.mem ∧
    (Root.drop s st).marker = st.marker := by
  refine ⟨?_, ?_, fun a ha => ?_, ?_, ?_, ?_, ?_, fun a ha => ?_, ?_, ?_, ?_⟩
  · simp [Root.clone, h]
  · simp [Root.clone, h, upd]
  · simp [Root.clone, h, upd, ha]
  · simp [Root.clone, h]
  · simp [Root.clone, h]
  · simp [Root.drop, h, upd]
  · omega
  · simp [Root.drop, h, upd, ha]
  · simp [Root.drop, h]
  · simp [Root.drop, h]
  · simp [Root.drop, h]

/-- Witness for claim C7: clone takes the count at address 0 from 3 to 4,
drop takes it from 3 to 2. -/
theorem clone_drop_refcount_witness :
    (Root.clone { inner := 0 } stEx).2.inners 0 =
      some { ptr := 5, trace_fn := 7, collection_marker := true,
             traced_count := 0, ref_count := 4 } ∧
    (Root.drop { inner := 0 } stEx).inners 0 =
      some { ptr := 5, trace_fn := 7, collection_marker := true,
             traced_count := 0, ref_count := 2 } :=
  ⟨(clone_drop_refcount { inner := 0 } stEx innerEx rfl (by decide)).2.1,
   (clone_drop_refcount { inner := 0 } stEx innerEx rfl
      (by decide)).2.2.2.2.2.1⟩

/-- Claim C8: the typed downcast compares the containing block's stored
type identity with the requested type's descriptor identity; on a match it
returns the typed wrapper, whose deref reads the object at its current
location through `RootInner.ptr`, and on a mismatch it returns (as a value,
not an abort) the descriptive error naming the stored type's header and the
requested type's name. -/
theorem try_from_downcast (T : TypeRep) (root : Root) (st : GcState)
    (i : RootInner) (h : st.inners root.inner = some i) :
    (st.headerInfo i.ptr = T.info →
       RootGc.try_from T root st = Except.ok { root := root } ∧
       RootGc.deref { root := root } st = some (st.mem i.ptr)) ∧
    (¬ st.headerInfo i.ptr = T.info →
       RootGc.try_from T root st =
         Except.error ("The Root is of type:          `"
           ++ st.headerDebug i.ptr
           ++ "`\nyou tried to convert it to a: `" ++ T.name ++ "`")) := by
  constructor
  · intro he
    exact ⟨by simp [RootGc.try_from, h, he], by simp [RootGc.deref, h]⟩
  · intro he
    simp [RootGc.try_from, h, he]

/-- Witness for claim C8: downcasting the root of the object at address 5
(block info identity 11) to a type of identity 11 succeeds and dereferences
to the heap value 105; downcasting to identity 12 yields the message. -/
theorem try_from_downcast_witness :
    RootGc.try_from { info := 11, name := "TyA" } { inner := 0 } stEx =
      Except.ok { root := { inner := 0 } } ∧
    RootGc.deref { root := { inner := 0 } } stEx = some 105 ∧
    RootGc.try_from { info := 12, name := "TyB" } { inner := 0 } stEx =
      Except.error ("The Root is of type:          `HeaderOfFive`\nyou tried to convert it to a: `TyB`") :=
  ⟨((try_from_downcast { info := 11, name := "TyA" } { inner := 0 } stEx
      innerEx rfl).1 (by decide)).1,
   ((try_from_downcast { info := 11, name := "TyA" } { inner := 0 } stEx
      innerEx rfl).1 (by decide)).2,
   (try_from_downcast { info := 12, name := "TyB" } { inner := 0 } stEx
      innerEx rfl).2 (by decide)⟩

/-- Claim C9: no operation of the root module deallocates a `RootInner`:
drop (which only decrements the count), clone, a trace step, and rooting
all leave every allocated `RootInner` allocated — in particular a
`RootInner` with live handles is never freed, and `ref_count` reaches zero
(on the last drop) with the record still allocated. -/
theorem rootinner_never_freed (s : Root) (st : GcState) (id : Nat)
    (h : (st.inners id).isSome = true) :
    ((Root.drop s st).inners id).isSome = true ∧
    ((Root.clone s st).2.inners id).isSome = true ∧
    ((Root.trace s st).inners id).isSome = true ∧
    (∀ addr trFn r st', Root.from_gc addr trFn st = Except.ok (r, st') →
       (st'.inners id).isSome = true) := by
  have hupd : ∀ (f : Nat → Option RootInner) (k : Nat) (v : RootInner),
      (f id).isSome = true → ((upd f k (some v)) id).isSome = true := by
    intro f k v hf
    by_cases hik : id = k <;> simp [upd, hik, hf]
  refine ⟨?_, ?_, ?_, ?_⟩
  · cases hs : st.inners s.inner with
    | none => simpa [Root.drop, hs] using h
    | some i => simpa [Root.drop, hs] using hupd st.inners s.inner _ h
  · cases hs : st.inners s.inner with
    | none => simpa [Root.clone, hs] using h
    | some i => simpa [Root.clone, hs] using hupd st.inners s.inner _ h
  · cases hs : st.inners s.inner with
    | none => simpa [Root.trace, hs] using h
    | some i =>
        simp only [Root.trace, hs]
        split <;> split <;> simpa using hupd st.inners s.inner _ h
  · intro addr trFn r st' hok
    cases he : st.evaced addr with
    | none =>
        simp only [Root.from_gc, he, Except.ok.injEq, Prod.mk.injEq] at hok
        obtain ⟨-, hst⟩ := hok
        subst hst
        exact hupd st.inners st.nextInner _ h
    | some os =>
        cases os with
        | Moved p => simp [Root.from_gc, he] at hok
        | Rooted rr =>
            simp only [Root.from_gc, he, Except.ok.injEq,
              Prod.mk.injEq] at hok
            obtain ⟨-, hst⟩ := hok
            subst hst
            exact h
        | Dropped => simp [Root.from_gc, he] at hok

/-- Witness for claim C9: dropping the only handle at the concrete state
leaves the `RootInner` at address 0 allocated. -/
theorem rootinner_never_freed_witness :
    ((Root.drop { inner := 0 } stEx).inners 0).isSome = true :=
  (rootinner_never_freed { inner := 0 } stEx 0 rfl).1

end NickelGc
